import Mathlib

/-!
Verification of the Newtonian-photon simulation engine.

Shallow embedding of the repository's Python sources:
  - vector.py          : Vector2D value type
  - grid.py            : Grid spatial index
  - physics_engine.py  : PhotonLikeParticle, resolve_relativistic_collision,
                         and the per-tick pipeline of simulation_process
                         (wall handling, collision scan, frame export).

Python floats are embedded as real numbers; Python int() truncation is
embedded as pyInt.  Fallible or guarded operations keep the source's guards
(zero checks) rather than relying on Lean's total division.
-/

namespace NewtonianPhoton

/-- Fixed constants from physics_engine.py (lines 12-14). -/
noncomputable def ENV_SIZE : ℝ × ℝ := (800, 600)

noncomputable def SPEED_OF_LIGHT : ℝ := 200.0

noncomputable def COLLISION_RADIUS : ℝ := 8.0

/-- vector.py, class Vector2D: a 2D vector of floats. -/
structure Vector2D where
  x : ℝ
  y : ℝ

/-- vector.py line 12: componentwise addition. -/
noncomputable def Vector2D.add (v w : Vector2D) : Vector2D :=
  ⟨v.x + w.x, v.y + w.y⟩

/-- vector.py line 15: componentwise subtraction. -/
noncomputable def Vector2D.sub (v w : Vector2D) : Vector2D :=
  ⟨v.x - w.x, v.y - w.y⟩

/-- vector.py line 18 (mul by a scalar). -/
noncomputable def Vector2D.smul (v : Vector2D) (k : ℝ) : Vector2D :=
  ⟨v.x * k, v.y * k⟩

/-- vector.py line 21 (truediv): division by zero returns the zero vector. -/
noncomputable def Vector2D.div (v : Vector2D) (k : ℝ) : Vector2D :=
  if k = 0 then ⟨0, 0⟩ else ⟨v.x / k, v.y / k⟩

/-- vector.py line 26: Euclidean magnitude. -/
noncomputable def Vector2D.magnitude (v : Vector2D) : ℝ :=
  Real.sqrt (v.x ^ 2 + v.y ^ 2)

/-- vector.py line 29: normalize, returning the zero vector when the
magnitude is zero. -/
noncomputable def Vector2D.normalize (v : Vector2D) : Vector2D :=
  if v.magnitude = 0 then ⟨0, 0⟩ else v.div v.magnitude

/-- physics_engine.py, class PhotonLikeParticle (line 23). -/
structure PhotonLikeParticle where
  id : ℕ
  position : Vector2D
  velocity : Vector2D
  wavelength : ℝ

/-- physics_engine.py lines 36-40: energy = 100000 / max(1, wavelength). -/
noncomputable def PhotonLikeParticle.energy (p : PhotonLikeParticle) : ℝ :=
  100000.0 / max 1.0 p.wavelength

/-- physics_engine.py lines 42-45: momentum magnitude p = E/c. -/
noncomputable def PhotonLikeParticle.momentum_magnitude
    (p : PhotonLikeParticle) : ℝ :=
  p.energy / SPEED_OF_LIGHT

/-- physics_engine.py lines 47-51: set_energy clamps a non-positive target
energy to 1.0, then stores wavelength = 100000 / energy. -/
noncomputable def PhotonLikeParticle.set_energy
    (p : PhotonLikeParticle) (new_energy : ℝ) : PhotonLikeParticle :=
  { p with wavelength := 100000.0 / (if new_energy ≤ 0 then 1.0 else new_energy) }

/-- physics_engine.py lines 73-75: collision axis from p2 to p1, with the
fixed fallback (1,0) when the normalized difference is the zero vector. -/
noncomputable def collisionAxis (p1 p2 : PhotonLikeParticle) : Vector2D :=
  let a := (p1.position.sub p2.position).normalize
  if a.magnitude = 0 then ⟨1, 0⟩ else a

/-- physics_engine.py lines 82-83: dot product of two vectors, written
componentwise as in the source. -/
noncomputable def dot2 (u w : Vector2D) : ℝ :=
  u.x * w.x + u.y * w.y

/-- physics_engine.py lines 78-86: relative velocity of the normalized
velocity directions along the collision axis. -/
noncomputable def resolverVrel (p1 p2 : PhotonLikeParticle) : ℝ :=
  dot2 p1.velocity.normalize (collisionAxis p1 p2)
    - dot2 p2.velocity.normalize (collisionAxis p1 p2)

/-- physics_engine.py lines 94-98: the transferred energy,
min(E1,E2) * (|v_rel| * 0.5). -/
noncomputable def energyTransfer (E1 E2 vrel : ℝ) : ℝ :=
  min E1 E2 * (|vrel| * 0.5)

/-- physics_engine.py lines 101-106: directionally applied transfer. -/
noncomputable def applyTransfer (E1 E2 t : ℝ) : ℝ × ℝ :=
  if E1 > E2 then (E1 - t, E2 + t) else (E1 + t, E2 - t)

/-- physics_engine.py lines 109-112: global decay applied only when
decay > 0. -/
noncomputable def applyDecay (decay : ℝ) (E : ℝ × ℝ) : ℝ × ℝ :=
  if decay > 0 then (E.1 * (1 - decay), E.2 * (1 - decay)) else E

/-- physics_engine.py lines 115-120: tolerance-gated numerical correction:
rescale both energies when the sum is positive and within 0.01 of
E_total * (1 - decay). -/
noncomputable def energyCorrection (decay Etotal : ℝ) (E : ℝ × ℝ) : ℝ × ℝ :=
  let s := E.1 + E.2
  if 0 < s ∧ |s - Etotal * (1 - decay)| < 0.01 then
    (E.1 * (Etotal * (1 - decay) / s), E.2 * (Etotal * (1 - decay) / s))
  else E

/-- The energies after transfer (physics_engine.py lines 94-106), before
decay and correction. -/
noncomputable def preDecayEnergies (p1 p2 : PhotonLikeParticle) : ℝ × ℝ :=
  applyTransfer p1.energy p2.energy
    (energyTransfer p1.energy p2.energy (resolverVrel p1 p2))

/-- The energies just before the numerical-correction step
(physics_engine.py lines 94-112). -/
noncomputable def preCorrectionEnergies
    (decay : ℝ) (p1 p2 : PhotonLikeParticle) : ℝ × ℝ :=
  applyDecay decay (preDecayEnergies p1 p2)

/-- The energies written back by set_energy (physics_engine.py
lines 94-124). -/
noncomputable def finalEnergies
    (decay : ℝ) (p1 p2 : PhotonLikeParticle) : ℝ × ℝ :=
  energyCorrection decay (p1.energy + p2.energy)
    (preCorrectionEnergies decay p1 p2)

/-- physics_engine.py lines 133-138 for one particle: reflect the
normalized direction about the collision axis
(tangent + axis * (-along), with tangent = dir - axis * along),
renormalize, and scale by the speed of light. -/
noncomputable def reflectedVelocity (vn axis : Vector2D) (along : ℝ) : Vector2D :=
  (((vn.sub (axis.smul along)).add (axis.smul (-along))).normalize).smul
    SPEED_OF_LIGHT

/-- physics_engine.py lines 53-143, resolve_relativistic_collision: energies
move through transfer, decay and correction before being written back with
set_energy, and both velocities are reflected about the collision axis and
rescaled to the constant speed.  The momentum vectors computed at lines
68-70 of the source are never read afterwards and are omitted.  The shared
global tunable_params['global_decay'] is passed as the decay argument. -/
noncomputable def resolve_relativistic_collision
    (decay : ℝ) (p1 p2 : PhotonLikeParticle) :
    PhotonLikeParticle × PhotonLikeParticle :=
  let axis := collisionAxis p1 p2
  let v1n := p1.velocity.normalize
  let v2n := p2.velocity.normalize
  let E := finalEnergies decay p1 p2
  let q1 := p1.set_energy E.1
  let q2 := p2.set_energy E.2
  ({ q1 with velocity := reflectedVelocity v1n axis (dot2 v1n axis) },
   { q2 with velocity := reflectedVelocity v2n axis (dot2 v2n axis) })

/-- physics_engine.py lines 192-198: an emitted particle's velocity is the
normalized direction (cos a, sin a) scaled by the speed of light. -/
noncomputable def emissionVelocity (a : ℝ) : Vector2D :=
  ((Vector2D.mk (Real.cos a) (Real.sin a)).normalize).smul SPEED_OF_LIGHT

/-- physics_engine.py lines 214-228: per-axis wall reflection on the
post-integration position, followed by a single energy loss when any wall
was hit and the global decay is positive.  The y test reads the original
post-integration y, which the x handling does not touch, as in the source. -/
noncomputable def wallUpdate (decay : ℝ) (p : PhotonLikeParticle) :
    PhotonLikeParticle :=
  let hitX := p.position.x ≤ COLLISION_RADIUS ∨
    p.position.x ≥ ENV_SIZE.1 - COLLISION_RADIUS
  let hitY := p.position.y ≤ COLLISION_RADIUS ∨
    p.position.y ≥ ENV_SIZE.2 - COLLISION_RADIUS
  let q : PhotonLikeParticle :=
    { p with
      velocity := ⟨if hitX then -p.velocity.x else p.velocity.x,
                   if hitY then -p.velocity.y else p.velocity.y⟩,
      position := ⟨if hitX then
                     max COLLISION_RADIUS
                       (min (ENV_SIZE.1 - COLLISION_RADIUS) p.position.x)
                   else p.position.x,
                   if hitY then
                     max COLLISION_RADIUS
                       (min (ENV_SIZE.2 - COLLISION_RADIUS) p.position.y)
                   else p.position.y⟩ }
  if (hitX ∨ hitY) ∧ decay > 0 then
    q.set_energy (q.energy * (1 - decay * 0.5))
  else q

/-- grid.py, class Grid: the cells mapping is embedded as a total function
from integer cell keys to buckets, an absent key standing for the empty
bucket (Python's `if key not in self.cells` / `if key in self.cells`
checks coincide with the empty default). -/
structure Grid where
  cell_size : ℝ
  cells : ℤ × ℤ → List PhotonLikeParticle

/-- Python's int() applied to a float truncates toward zero: floor for
non-negative arguments, ceiling for negative ones. -/
noncomputable def pyInt (r : ℝ) : ℤ :=
  if 0 ≤ r then ⌊r⌋ else ⌈r⌉

/-- grid.py lines 13-15 and 21-22: the cell key computed by both insert and
get_neighbors, int(coordinate / cell_size) on each axis. -/
noncomputable def Grid.key (g : Grid) (pos : Vector2D) : ℤ × ℤ :=
  (pyInt (pos.x / g.cell_size), pyInt (pos.y / g.cell_size))

/-- Modelled from the spec's words (section 3, SpatialGrid): the cell
coordinate written as (floor(x/cellSize), floor(y/cellSize)), for
comparison with the source's truncating Grid.key. -/
noncomputable def Grid.keyFloor (g : Grid) (pos : Vector2D) : ℤ × ℤ :=
  (⌊pos.x / g.cell_size⌋, ⌊pos.y / g.cell_size⌋)

/-- grid.py lines 12-18: insert appends the particle to the bucket at its
cell key. -/
noncomputable def Grid.insert (g : Grid) (p : PhotonLikeParticle) : Grid :=
  { g with cells := fun k =>
      if k = g.key p.position then g.cells k ++ [p] else g.cells k }

/-- grid.py lines 24-26: the raster order of the 3x3 block of cell offsets,
dx outer and dy inner, each ranging over -1, 0, 1. -/
def gridOffsets : List (ℤ × ℤ) :=
  [(-1, -1), (-1, 0), (-1, 1), (0, -1), (0, 0), (0, 1), (1, -1), (1, 0), (1, 1)]

/-- grid.py lines 20-29: get_neighbors concatenates the buckets of the 3x3
block of cells centered on the particle's own cell key. -/
noncomputable def Grid.get_neighbors (g : Grid) (p : PhotonLikeParticle) :
    List PhotonLikeParticle :=
  (gridOffsets.map (fun d =>
    g.cells (g.key p.position + d))).flatten

/-- Modelled from the spec's words (section 4.4 step 8): the correction as
the claim describes it, gated only on the 0.01 window around the expected
sum, for comparison with the source's energyCorrection. -/
noncomputable def specGatedCorrection (decay Etotal : ℝ) (E : ℝ × ℝ) : ℝ × ℝ :=
  if |E.1 + E.2 - Etotal * (1 - decay)| < 0.01 then
    (E.1 * (Etotal * (1 - decay) / (E.1 + E.2)),
     E.2 * (Etotal * (1 - decay) / (E.1 + E.2)))
  else E

/-- The per-tick collision-scan state of simulation_process
(physics_engine.py lines 235-253): the processed set of ordered id pairs
and the ordered log of pairs actually passed to the resolver. -/
structure ScanState where
  processed : List (ℕ × ℕ)
  resolved : List (ℕ × ℕ)

/-- physics_engine.py lines 239-253, one neighbor probe of the collision
scan: skip when p1.id >= p2.id, skip when the pair was already processed,
and otherwise consult `collide` — an oracle abstracting the distance test
`dist < COLLISION_RADIUS * 2` at this moment of the loop, as a function of
the resolution history (which determines all particle mutation so far).
On a hit the pair is marked processed and appended to the resolver log. -/
def collisionStep (collide : ℕ × ℕ → List (ℕ × ℕ) → Bool)
    (st : ScanState) (pr : ℕ × ℕ) : ScanState :=
  if pr.2 ≤ pr.1 then st
  else if pr ∈ st.processed then st
  else if collide pr st.resolved then
    ⟨pr :: st.processed, st.resolved ++ [pr]⟩
  else st

/-- physics_engine.py lines 235-253: the collision scan over the sequence
of (p1.id, p2.id) probes surfaced by the nested particle/neighbor loops,
starting from the empty processed set. -/
def collisionScan (collide : ℕ × ℕ → List (ℕ × ℕ) → Bool)
    (probes : List (ℕ × ℕ)) : ScanState :=
  probes.foldl (collisionStep collide) ⟨[], []⟩

/-- physics_engine.py lines 269-277: the exported frame snapshot. -/
structure Frame where
  x : List ℝ
  y : List ℝ
  wavelength : List ℝ
  count : ℕ
  tick : ℕ
  total_energy : ℝ
  collisions : ℕ

/-- physics_engine.py lines 279-280: the frame is enqueued only when the
data channel holds fewer than 2 frames; otherwise it is dropped. -/
def publishFrame (q : List Frame) (f : Frame) : List Frame :=
  if q.length < 2 then q ++ [f] else q

/-! ### Concrete states used as inputs of witnesses and counterexamples -/

/-- A particle 16 units right of pB, moving left at speed 200,
wavelength 1000 (energy 100). -/
noncomputable def pA : PhotonLikeParticle := ⟨0, ⟨16, 0⟩, ⟨-200, 0⟩, 1000⟩

/-- A particle at the origin moving right at speed 200, wavelength 1000
(energy 100). -/
noncomputable def pB : PhotonLikeParticle := ⟨1, ⟨0, 0⟩, ⟨200, 0⟩, 1000⟩

/-- A particle whose post-integration position is the lower-left corner,
beyond both wall insets. -/
noncomputable def pCorner : PhotonLikeParticle := ⟨2, ⟨0, 0⟩, ⟨-1, -1⟩, 1000⟩

/-- A particle one unit inside the left wall inset after integration
(x = COLLISION_RADIUS - 1). -/
noncomputable def pWall : PhotonLikeParticle := ⟨3, ⟨7, 300⟩, ⟨-5, 3⟩, 1000⟩

/-- A generic resting particle used when only energy accessors matter. -/
noncomputable def pZero : PhotonLikeParticle := ⟨4, ⟨0, 0⟩, ⟨0, 0⟩, 500⟩

/-- A mid-field particle moving right at speed 200. -/
noncomputable def pW1 : PhotonLikeParticle := ⟨5, ⟨100, 100⟩, ⟨200, 0⟩, 500⟩

/-- A second mid-field particle moving right at speed 200. -/
noncomputable def pW2 : PhotonLikeParticle := ⟨6, ⟨120, 100⟩, ⟨200, 0⟩, 500⟩

/-- An empty grid with the engine's cell size 3 * COLLISION_RADIUS = 24. -/
noncomputable def gridEmpty : Grid := ⟨24, fun _ => []⟩

/-- An empty frame snapshot. -/
noncomputable def frame0 : Frame := ⟨[], [], [], 0, 0, 0, 0⟩

/-! ### Helper lemmas -/

theorem sq_magnitude (v : Vector2D) : v.magnitude ^ 2 = v.x ^ 2 + v.y ^ 2 :=
  Real.sq_sqrt (by positivity)

theorem magnitude_eq_one_of_sq (v : Vector2D) (h : v.x ^ 2 + v.y ^ 2 = 1) :
    v.magnitude = 1 := by
  rw [Vector2D.magnitude, h, Real.sqrt_one]

theorem sq_of_magnitude_eq_one (v : Vector2D) (h : v.magnitude = 1) :
    v.x ^ 2 + v.y ^ 2 = 1 := by
  have := sq_magnitude v
  rw [h] at this
  simpa using this.symm

theorem magnitude_smul (v : Vector2D) (k : ℝ) :
    (v.smul k).magnitude = |k| * v.magnitude := by
  simp only [Vector2D.smul, Vector2D.magnitude]
  rw [show (v.x * k) ^ 2 + (v.y * k) ^ 2 = k ^ 2 * (v.x ^ 2 + v.y ^ 2) by ring,
    Real.sqrt_mul (by positivity), Real.sqrt_sq_eq_abs]

theorem normalize_magnitude (v : Vector2D) (h : v.magnitude ≠ 0) :
    v.normalize.magnitude = 1 := by
  have hs : v.x ^ 2 + v.y ^ 2 ≠ 0 := by
    intro h0
    exact h (by rw [Vector2D.magnitude, h0, Real.sqrt_zero])
  have hm : v.magnitude ^ 2 = v.x ^ 2 + v.y ^ 2 := sq_magnitude v
  rw [Vector2D.normalize, if_neg h, Vector2D.div, if_neg h]
  apply magnitude_eq_one_of_sq
  have hmne : v.magnitude ≠ 0 := h
  field_simp
  linarith [hm]

theorem collisionAxis_sq (p1 p2 : PhotonLikeParticle) :
    (collisionAxis p1 p2).x ^ 2 + (collisionAxis p1 p2).y ^ 2 = 1 := by
  rw [collisionAxis]
  set a := (p1.position.sub p2.position).normalize with ha
  by_cases h : a.magnitude = 0
  · rw [if_pos h]; norm_num
  · rw [if_neg h]
    apply sq_of_magnitude_eq_one
    by_cases hd : (p1.position.sub p2.position).magnitude = 0
    · exfalso
      apply h
      rw [ha, Vector2D.normalize, if_pos hd]
      simp [Vector2D.magnitude]
    · exact normalize_magnitude _ hd

theorem reflect_sq (u a : Vector2D) (hu : u.x ^ 2 + u.y ^ 2 = 1)
    (ha : a.x ^ 2 + a.y ^ 2 = 1) :
    ((u.sub (a.smul (dot2 u a))).add (a.smul (-(dot2 u a)))).x ^ 2 +
      ((u.sub (a.smul (dot2 u a))).add (a.smul (-(dot2 u a)))).y ^ 2 = 1 := by
  simp only [Vector2D.sub, Vector2D.add, Vector2D.smul, dot2]
  linear_combination hu + 4 * (u.x * a.x + u.y * a.y) ^ 2 * ha

theorem reflectedVelocity_magnitude (u a : Vector2D)
    (hu : u.x ^ 2 + u.y ^ 2 = 1) (ha : a.x ^ 2 + a.y ^ 2 = 1) :
    (reflectedVelocity u a (dot2 u a)).magnitude = SPEED_OF_LIGHT := by
  rw [reflectedVelocity, magnitude_smul]
  have hr := reflect_sq u a hu ha
  have hm : ((u.sub (a.smul (dot2 u a))).add
      (a.smul (-(dot2 u a)))).magnitude = 1 := magnitude_eq_one_of_sq _ hr
  rw [normalize_magnitude _ (by rw [hm]; norm_num)]
  rw [SPEED_OF_LIGHT]
  norm_num

theorem energy_pos (p : PhotonLikeParticle) : 0 < p.energy := by
  rw [PhotonLikeParticle.energy]
  have h1 : (1.0 : ℝ) ≤ max 1.0 p.wavelength := le_max_left _ _
  positivity

theorem energy_le (p : PhotonLikeParticle) : p.energy ≤ 100000 := by
  rw [PhotonLikeParticle.energy]
  have h1 : (1.0 : ℝ) ≤ max 1.0 p.wavelength := le_max_left _ _
  rw [div_le_iff₀ (by linarith)]
  nlinarith

theorem applyTransfer_sum (E1 E2 t : ℝ) :
    (applyTransfer E1 E2 t).1 + (applyTransfer E1 E2 t).2 = E1 + E2 := by
  rw [applyTransfer]
  split_ifs <;> simp

theorem preCorrection_sum (decay : ℝ) (p1 p2 : PhotonLikeParticle)
    (h0 : 0 ≤ decay) :
    (preCorrectionEnergies decay p1 p2).1 +
      (preCorrectionEnergies decay p1 p2).2 =
      (p1.energy + p2.energy) * (1 - decay) := by
  rw [preCorrectionEnergies, applyDecay]
  split_ifs with h
  · simp only
    rw [show (preDecayEnergies p1 p2).1 * (1 - decay) +
        (preDecayEnergies p1 p2).2 * (1 - decay) =
        ((preDecayEnergies p1 p2).1 + (preDecayEnergies p1 p2).2) *
          (1 - decay) by ring]
    rw [preDecayEnergies, applyTransfer_sum]
  · have hd : decay = 0 := le_antisymm (not_lt.mp h) h0
    rw [hd]
    rw [preDecayEnergies, applyTransfer_sum]
    ring

theorem collisionStep_inv (collide : ℕ × ℕ → List (ℕ × ℕ) → Bool)
    (st : ScanState) (pr : ℕ × ℕ)
    (h1 : st.resolved.Nodup)
    (h2 : ∀ q ∈ st.resolved, q ∈ st.processed)
    (h3 : ∀ q ∈ st.resolved, q.1 < q.2) :
    (collisionStep collide st pr).resolved.Nodup ∧
    (∀ q ∈ (collisionStep collide st pr).resolved,
        q ∈ (collisionStep collide st pr).processed) ∧
    (∀ q ∈ (collisionStep collide st pr).resolved, q.1 < q.2) := by
  rw [collisionStep]
  split_ifs with ha hb hc
  · exact ⟨h1, h2, h3⟩
  · exact ⟨h1, h2, h3⟩
  · have hnotin : pr ∉ st.resolved := fun hmem => hb (h2 pr hmem)
    refine ⟨?_, ?_, ?_⟩
    · exact h1.append (List.nodup_singleton pr)
        (fun x hx hx' => by
          rw [List.mem_singleton] at hx'
          exact hnotin (hx' ▸ hx))
    · intro q hq
      rcases List.mem_append.mp hq with h | h
      · exact List.mem_cons_of_mem _ (h2 q h)
      · rw [List.mem_singleton] at h
        exact h ▸ List.mem_cons_self _ _
    · intro q hq
      rcases List.mem_append.mp hq with h | h
      · exact h3 q h
      · rw [List.mem_singleton] at h
        exact h ▸ Nat.lt_of_not_le (fun hle => ha hle)
  · exact ⟨h1, h2, h3⟩

theorem collisionScan_inv (collide : ℕ × ℕ → List (ℕ × ℕ) → Bool)
    (probes : List (ℕ × ℕ)) (st : ScanState)
    (h1 : st.resolved.Nodup)
    (h2 : ∀ q ∈ st.resolved, q ∈ st.processed)
    (h3 : ∀ q ∈ st.resolved, q.1 < q.2) :
    (probes.foldl (collisionStep collide) st).resolved.Nodup ∧
    (∀ q ∈ (probes.foldl (collisionStep collide) st).resolved,
        q ∈ (probes.foldl (collisionStep collide) st).processed) ∧
    (∀ q ∈ (probes.foldl (collisionStep collide) st).resolved, q.1 < q.2) := by
  induction probes generalizing st with
  | nil => exact ⟨h1, h2, h3⟩
  | cons a l ih =>
    rw [List.foldl_cons]
    have h := collisionStep_inv collide st a h1 h2 h3
    exact ih (collisionStep collide st a) h.1 h.2.1 h.2.2

/-- C5: within any single tick's collision scan, the log of unordered id
pairs passed to the resolver is duplicate-free and every logged pair is
normalized with the smaller id first, for every sequence of probes the
grid surfaces and every behavior of the distance test — so no unordered
pair of particle ids reaches the resolver more than once per tick. -/
theorem C5_pair_resolved_once (collide : ℕ × ℕ → List (ℕ × ℕ) → Bool)
    (probes : List (ℕ × ℕ)) :
    (collisionScan collide probes).resolved.Nodup ∧
    ∀ q ∈ (collisionScan collide probes).resolved, q.1 < q.2 := by
  have h := collisionScan_inv collide probes ⟨[], []⟩
    (List.nodup_nil) (fun q hq => absurd hq (List.not_mem_nil q))
    (fun q hq => absurd hq (List.not_mem_nil q))
  exact ⟨h.1, h.2.2⟩

theorem C5_pair_resolved_once_witness :
    (collisionScan (fun _ _ => true) [(0, 1), (1, 0), (0, 1)]).resolved.Nodup ∧
    (0 : ℕ) < 1 :=
  ⟨(C5_pair_resolved_once (fun _ _ => true) [(0, 1), (1, 0), (0, 1)]).1,
   (C5_pair_resolved_once (fun _ _ => true) [(0, 1), (1, 0), (0, 1)]).2
     (0, 1) (by decide)⟩

/-- C7: at the end of a tick the frame is enqueued exactly when the data
channel holds fewer than 2 unconsumed frames; with 2 or more already
buffered the frame is dropped and the channel contents are unchanged. -/
theorem C7_frame_backpressure (q : List Frame) (f : Frame) :
    (q.length < 2 → publishFrame q f = q ++ [f]) ∧
    (2 ≤ q.length → publishFrame q f = q) := by
  constructor
  · intro h
    rw [publishFrame, if_pos h]
  · intro h
    rw [publishFrame, if_neg (not_lt.mpr h)]

theorem C7_frame_backpressure_witness :
    publishFrame [] frame0 = [frame0] ∧
    publishFrame [frame0, frame0] frame0 = [frame0, frame0] :=
  ⟨(C7_frame_backpressure [] frame0).1 (by simp),
   (C7_frame_backpressure [frame0, frame0] frame0).2 (by simp)⟩

/-- C8: the degenerate vector operations are total: normalize of the zero
vector is the zero vector, and division of any vector by the zero scalar
is the zero vector. -/
theorem C8_vector_degenerate_total :
    (Vector2D.mk 0 0).normalize = Vector2D.mk 0 0 ∧
    ∀ v : Vector2D, v.div 0 = Vector2D.mk 0 0 := by
  constructor
  · rw [Vector2D.normalize, if_pos]
    simp [Vector2D.magnitude]
  · intro v
    rw [Vector2D.div, if_pos rfl]

/-- C10: round-trip of set_energy and the energy getter: a target energy
in (0, 100000] is read back exactly; a target above 100000 reads back as
100000 (the getter clamps wavelength below 1); a non-positive target reads
back as 1. -/
theorem C10_energy_roundtrip (p : PhotonLikeParticle) (e : ℝ) :
    (0 < e → e ≤ 100000 → (p.set_energy e).energy = e) ∧
    (100000 < e → (p.set_energy e).energy = 100000) ∧
    (e ≤ 0 → (p.set_energy e).energy = 1) := by
  have hw : (p.set_energy e).wavelength =
      100000.0 / (if e ≤ 0 then 1.0 else e) := rfl
  refine ⟨fun h1 h2 => ?_, fun h => ?_, fun h => ?_⟩
  · rw [PhotonLikeParticle.energy, hw, if_neg (not_le.mpr h1)]
    have hl : (1.0 : ℝ) ≤ 100000.0 / e := by
      rw [le_div_iff₀ h1]
      linarith
    rw [max_eq_right hl]
    have he : e ≠ 0 := ne_of_gt h1
    field_simp
  · have hpos : (0 : ℝ) < e := lt_trans (by norm_num) h
    rw [PhotonLikeParticle.energy, hw, if_neg (not_le.mpr hpos)]
    have hl : 100000.0 / e ≤ (1.0 : ℝ) := by
      rw [div_le_iff₀ hpos]
      linarith
    rw [max_eq_left hl]
    norm_num
  · rw [PhotonLikeParticle.energy, hw, if_pos h]
    norm_num

theorem C10_energy_roundtrip_witness :
    ((0 : ℝ) < 40000 ∧ (40000 : ℝ) ≤ 100000) ∧
    (pZero.set_energy 40000).energy = 40000 :=
  ⟨⟨by norm_num, by norm_num⟩,
   (C10_energy_roundtrip pZero 40000).1 (by norm_num) (by norm_num)⟩

/-- C2: for a single call of the collision resolver with globalDecay = 0,
the energies just before the numerical-correction step sum to within 0.01
of the pre-collision total (the difference is in fact zero over the
reals), and the corrected energies sum to the pre-collision total
exactly. -/
theorem C2_energy_conservation (p1 p2 : PhotonLikeParticle) :
    |(preCorrectionEnergies 0 p1 p2).1 + (preCorrectionEnergies 0 p1 p2).2
        - (p1.energy + p2.energy)| < 0.01 ∧
    (finalEnergies 0 p1 p2).1 + (finalEnergies 0 p1 p2).2 =
      p1.energy + p2.energy := by
  have hsum := preCorrection_sum 0 p1 p2 le_rfl
  have hE : 0 < p1.energy + p2.energy := by
    have := energy_pos p1
    have := energy_pos p2
    linarith
  have hdiff : (preCorrectionEnergies 0 p1 p2).1 +
      (preCorrectionEnergies 0 p1 p2).2 - (p1.energy + p2.energy) = 0 := by
    rw [hsum]
    ring
  constructor
  · rw [hdiff, abs_zero]
    norm_num
  · rw [finalEnergies]
    simp only [energyCorrection]
    rw [if_pos ⟨by linarith [hdiff], by rw [show (p1.energy + p2.energy) *
      (1 - (0:ℝ)) = p1.energy + p2.energy by ring, hdiff, abs_zero]; norm_num⟩]
    have hs0 : (preCorrectionEnergies 0 p1 p2).1 +
        (preCorrectionEnergies 0 p1 p2).2 ≠ 0 := by linarith [hdiff]
    field_simp
    ring

/-- C4: the collision resolver's correction step is tolerance-gated exactly
as the spec's window describes: for decay in [0,1) the written-back
energies equal the spec-gated correction (rescale when the uncorrected sum
is within 0.01 of Etotal * (1 - decay), otherwise leave the energies
untouched); the code's additional positive-sum guard is always satisfied
there. -/
theorem C4_correction_gate (decay : ℝ) (p1 p2 : PhotonLikeParticle)
    (h0 : 0 ≤ decay) (h1 : decay < 1) :
    finalEnergies decay p1 p2 =
      specGatedCorrection decay (p1.energy + p2.energy)
        (preCorrectionEnergies decay p1 p2) := by
  have hs : 0 < (preCorrectionEnergies decay p1 p2).1 +
      (preCorrectionEnergies decay p1 p2).2 := by
    rw [preCorrection_sum decay p1 p2 h0]
    have := energy_pos p1
    have := energy_pos p2
    nlinarith
  rw [finalEnergies]
  simp only [energyCorrection, specGatedCorrection]
  by_cases hw : |(preCorrectionEnergies decay p1 p2).1 +
      (preCorrectionEnergies decay p1 p2).2 -
      (p1.energy + p2.energy) * (1 - decay)| < 0.01
  · rw [if_pos ⟨hs, hw⟩, if_pos hw]
  · rw [if_neg (fun hc => hw hc.2), if_neg hw]

theorem C4_correction_gate_witness :
    ((0 : ℝ) ≤ 0 ∧ (0 : ℝ) < 1) ∧
    finalEnergies 0 pW1 pW2 =
      specGatedCorrection 0 (pW1.energy + pW2.energy)
        (preCorrectionEnergies 0 pW1 pW2) :=
  ⟨⟨le_rfl, by norm_num⟩,
   C4_correction_gate 0 pW1 pW2 le_rfl (by norm_num)⟩

theorem wall_velocity_magnitude (decay : ℝ) (p : PhotonLikeParticle) :
    (wallUpdate decay p).velocity.magnitude = p.velocity.magnitude := by
  simp only [wallUpdate, PhotonLikeParticle.set_energy]
  split_ifs <;>
    simp only [Vector2D.magnitude] <;>
    congr 1 <;>
    ring

theorem velocity_normalize_sq (v : Vector2D)
    (h : v.magnitude = SPEED_OF_LIGHT) :
    v.normalize.x ^ 2 + v.normalize.y ^ 2 = 1 :=
  sq_of_magnitude_eq_one _
    (normalize_magnitude v (by rw [h, SPEED_OF_LIGHT]; norm_num))

/-- C1: speed is conserved at magnitude C = 200: an emitted particle's
velocity has magnitude C, wall handling preserves the velocity magnitude
(it only negates components), and the collision resolver writes back both
velocities as renormalized unit directions scaled by C whenever the
incoming speeds are C — so every tick-end velocity has magnitude C. -/
theorem C1_speed_invariant (decay a : ℝ) (q p1 p2 : PhotonLikeParticle)
    (hq : q.velocity.magnitude = SPEED_OF_LIGHT)
    (h1 : p1.velocity.magnitude = SPEED_OF_LIGHT)
    (h2 : p2.velocity.magnitude = SPEED_OF_LIGHT) :
    (emissionVelocity a).magnitude = SPEED_OF_LIGHT ∧
    (wallUpdate decay q).velocity.magnitude = SPEED_OF_LIGHT ∧
    (resolve_relativistic_collision decay p1 p2).1.velocity.magnitude =
      SPEED_OF_LIGHT ∧
    (resolve_relativistic_collision decay p1 p2).2.velocity.magnitude =
      SPEED_OF_LIGHT := by
  refine ⟨?_, ?_, ?_, ?_⟩
  · have hcs : (Vector2D.mk (Real.cos a) (Real.sin a)).magnitude = 1 :=
      magnitude_eq_one_of_sq _ (by simp [Real.cos_sq_add_sin_sq a])
    rw [emissionVelocity, magnitude_smul,
      normalize_magnitude _ (by rw [hcs]; norm_num), mul_one,
      abs_of_pos (by rw [SPEED_OF_LIGHT]; norm_num)]
  · rw [wall_velocity_magnitude, hq]
  · simp only [resolve_relativistic_collision]
    exact reflectedVelocity_magnitude _ _
      (velocity_normalize_sq _ h1) (collisionAxis_sq p1 p2)
  · simp only [resolve_relativistic_collision]
    exact reflectedVelocity_magnitude _ _
      (velocity_normalize_sq _ h2) (collisionAxis_sq p1 p2)

theorem C1_speed_invariant_witness :
    pW1.velocity.magnitude = SPEED_OF_LIGHT ∧
    (resolve_relativistic_collision 0 pW1 pW2).1.velocity.magnitude =
      SPEED_OF_LIGHT := by
  have hv : (Vector2D.mk 200 0).magnitude = SPEED_OF_LIGHT := by
    rw [Vector2D.magnitude, SPEED_OF_LIGHT]
    show Real.sqrt ((200 : ℝ) ^ 2 + (0 : ℝ) ^ 2) = 200.0
    rw [show ((200 : ℝ) ^ 2 + (0 : ℝ) ^ 2) = 200 ^ 2 by norm_num,
      Real.sqrt_sq (by norm_num : (0 : ℝ) ≤ 200)]
    norm_num
  have h1 : pW1.velocity.magnitude = SPEED_OF_LIGHT := hv
  have h2 : pW2.velocity.magnitude = SPEED_OF_LIGHT := hv
  exact ⟨h1, (C1_speed_invariant 0 0 pW1 pW1 pW2 h1 h1 h2).2.2.1⟩

theorem normalize_eval (v : Vector2D) (m : ℝ) (hm : 0 < m)
    (hsq : v.x ^ 2 + v.y ^ 2 = m ^ 2) :
    v.normalize = Vector2D.mk (v.x / m) (v.y / m) := by
  have hmag : v.magnitude = m := by
    rw [Vector2D.magnitude, hsq, Real.sqrt_sq hm.le]
  rw [Vector2D.normalize, if_neg (by rw [hmag]; exact ne_of_gt hm),
    Vector2D.div, if_neg (by rw [hmag]; exact ne_of_gt hm), hmag]

theorem energy_pA : pA.energy = 100 := by
  rw [PhotonLikeParticle.energy, show pA.wavelength = (1000 : ℝ) from rfl,
    max_eq_right (by norm_num : (1.0 : ℝ) ≤ 1000)]
  norm_num

theorem energy_pB : pB.energy = 100 := by
  rw [PhotonLikeParticle.energy, show pB.wavelength = (1000 : ℝ) from rfl,
    max_eq_right (by norm_num : (1.0 : ℝ) ≤ 1000)]
  norm_num

theorem normalize_vA : pA.velocity.normalize = Vector2D.mk (-1) 0 := by
  rw [show pA.velocity = Vector2D.mk (-200) 0 from rfl,
    normalize_eval (Vector2D.mk (-200) 0) 200 (by norm_num) (by norm_num)]
  simp only [Vector2D.mk.injEq]
  norm_num

theorem normalize_vB : pB.velocity.normalize = Vector2D.mk 1 0 := by
  rw [show pB.velocity = Vector2D.mk 200 0 from rfl,
    normalize_eval (Vector2D.mk 200 0) 200 (by norm_num) (by norm_num)]
  simp only [Vector2D.mk.injEq]
  norm_num

theorem axis_pA_pB : collisionAxis pA pB = Vector2D.mk 1 0 := by
  have hd : pA.position.sub pB.position = Vector2D.mk 16 0 := by
    simp only [pA, pB, Vector2D.sub, Vector2D.mk.injEq]
    norm_num
  have hn : (pA.position.sub pB.position).normalize = Vector2D.mk 1 0 := by
    rw [hd, normalize_eval (Vector2D.mk 16 0) 16 (by norm_num) (by norm_num)]
    simp only [Vector2D.mk.injEq]
    norm_num
  simp only [collisionAxis]
  rw [hn]
  split_ifs <;> rfl

theorem vrel_pA_pB : resolverVrel pA pB = -2 := by
  rw [resolverVrel, axis_pA_pB, normalize_vA, normalize_vB]
  simp only [dot2]
  norm_num

/-- C3 counterexample: the particles pA and pB have equal pre-collision
energies (both 100), yet the transfer step moves 100 units of energy from
pB to pA (the head-on geometry makes the efficiency 2), leaving energies
(200, 0) instead of the claimed unchanged (100, 100). -/
theorem C3_counterexample :
    pA.energy = pB.energy ∧
    preDecayEnergies pA pB ≠ (pA.energy, pB.energy) := by
  have ht : energyTransfer pA.energy pB.energy (resolverVrel pA pB) = 100 := by
    rw [energyTransfer, energy_pA, energy_pB, vrel_pA_pB, min_self,
      abs_neg, abs_of_pos (by norm_num : (0 : ℝ) < 2)]
    norm_num
  refine ⟨by rw [energy_pA, energy_pB], ?_⟩
  rw [preDecayEnergies, applyTransfer, ht, energy_pA, energy_pB,
    if_neg (lt_irrefl (100 : ℝ))]
  simp only [Prod.mk.injEq, ne_eq]
  norm_num

/-- C3 amended: when the pre-collision energies are equal the else branch
is indeed taken, but it is not a no-op on the individual energies: the
transfer amount moves from particle 2 to particle 1 (E1' = E1 + transfer,
E2' = E2 - transfer), so only the total — not each energy — is unchanged;
the individual energies change whenever the transfer is nonzero. -/
theorem C3_equal_energy_transfer (p1 p2 : PhotonLikeParticle)
    (h : p1.energy = p2.energy) :
    preDecayEnergies p1 p2 =
      (p1.energy + energyTransfer p1.energy p2.energy (resolverVrel p1 p2),
       p2.energy - energyTransfer p1.energy p2.energy (resolverVrel p1 p2)) ∧
    (preDecayEnergies p1 p2).1 + (preDecayEnergies p1 p2).2 =
      p1.energy + p2.energy := by
  constructor
  · rw [preDecayEnergies, applyTransfer, if_neg (not_lt.mpr h.le)]
  · rw [preDecayEnergies, applyTransfer_sum]

theorem C3_equal_energy_transfer_witness :
    pA.energy = pB.energy ∧
    (preDecayEnergies pA pB).1 + (preDecayEnergies pA pB).2 =
      pA.energy + pB.energy := by
  have h : pA.energy = pB.energy := by rw [energy_pA, energy_pB]
  exact ⟨h, (C3_equal_energy_transfer pA pB h).2⟩

theorem wallUpdate_wavelength_hit (decay : ℝ) (p : PhotonLikeParticle)
    (hD : ((p.position.x ≤ COLLISION_RADIUS ∨
        p.position.x ≥ ENV_SIZE.1 - COLLISION_RADIUS) ∨
      (p.position.y ≤ COLLISION_RADIUS ∨
        p.position.y ≥ ENV_SIZE.2 - COLLISION_RADIUS)) ∧ decay > 0) :
    (wallUpdate decay p).wavelength =
      (p.set_energy (p.energy * (1 - decay * 0.5))).wavelength := by
  simp only [wallUpdate, PhotonLikeParticle.set_energy,
    PhotonLikeParticle.energy]
  split_ifs <;> simp_all

/-- C6 amended: per-axis wall handling negates the velocity component and
clamps the position on every axis whose inset boundary the
post-integration position reaches, and leaves the other axis alone; but
the energy reduction setEnergy(energy * (1 - decay * 0.5)) is applied
once per particle when at least one wall was hit and decay > 0 — not once
per axis hit. -/
theorem C6_wall_handling (decay : ℝ) (p : PhotonLikeParticle) :
    ((p.position.x ≤ COLLISION_RADIUS ∨
        p.position.x ≥ ENV_SIZE.1 - COLLISION_RADIUS) →
      (wallUpdate decay p).velocity.x = -p.velocity.x ∧
      (wallUpdate decay p).position.x =
        max COLLISION_RADIUS
          (min (ENV_SIZE.1 - COLLISION_RADIUS) p.position.x)) ∧
    (¬(p.position.x ≤ COLLISION_RADIUS ∨
        p.position.x ≥ ENV_SIZE.1 - COLLISION_RADIUS) →
      (wallUpdate decay p).velocity.x = p.velocity.x ∧
      (wallUpdate decay p).position.x = p.position.x) ∧
    ((p.position.y ≤ COLLISION_RADIUS ∨
        p.position.y ≥ ENV_SIZE.2 - COLLISION_RADIUS) →
      (wallUpdate decay p).velocity.y = -p.velocity.y ∧
      (wallUpdate decay p).position.y =
        max COLLISION_RADIUS
          (min (ENV_SIZE.2 - COLLISION_RADIUS) p.position.y)) ∧
    (¬(p.position.y ≤ COLLISION_RADIUS ∨
        p.position.y ≥ ENV_SIZE.2 - COLLISION_RADIUS) →
      (wallUpdate decay p).velocity.y = p.velocity.y ∧
      (wallUpdate decay p).position.y = p.position.y) ∧
    (((p.position.x ≤ COLLISION_RADIUS ∨
        p.position.x ≥ ENV_SIZE.1 - COLLISION_RADIUS) ∨
      (p.position.y ≤ COLLISION_RADIUS ∨
        p.position.y ≥ ENV_SIZE.2 - COLLISION_RADIUS)) ∧ decay > 0 →
      (wallUpdate decay p).wavelength =
        (p.set_energy (p.energy * (1 - decay * 0.5))).wavelength) ∧
    (¬(((p.position.x ≤ COLLISION_RADIUS ∨
        p.position.x ≥ ENV_SIZE.1 - COLLISION_RADIUS) ∨
      (p.position.y ≤ COLLISION_RADIUS ∨
        p.position.y ≥ ENV_SIZE.2 - COLLISION_RADIUS)) ∧ decay > 0) →
      (wallUpdate decay p).wavelength = p.wavelength) := by
  refine ⟨fun hX => ?_, fun hX => ?_, fun hY => ?_, fun hY => ?_,
    fun hD => ?_, fun hD => ?_⟩ <;>
  · simp only [wallUpdate, PhotonLikeParticle.set_energy,
      PhotonLikeParticle.energy]
    split_ifs <;> simp_all

theorem C6_wall_handling_witness :
    (pWall.position.x ≤ COLLISION_RADIUS ∨
      pWall.position.x ≥ ENV_SIZE.1 - COLLISION_RADIUS) ∧
    (wallUpdate 0 pWall).velocity.x = -pWall.velocity.x ∧
    (wallUpdate 0 pWall).position.x =
      max COLLISION_RADIUS
        (min (ENV_SIZE.1 - COLLISION_RADIUS) pWall.position.x) := by
  have hX : pWall.position.x ≤ COLLISION_RADIUS ∨
      pWall.position.x ≥ ENV_SIZE.1 - COLLISION_RADIUS := by
    left
    rw [show pWall.position.x = (7 : ℝ) from rfl, COLLISION_RADIUS]
    norm_num
  exact ⟨hX, (C6_wall_handling 0 pWall).1 hX⟩

/-- C6 counterexample: pCorner reaches both the x and the y inset boundary
in the same tick with decay 1/2; the code reduces the energy once (new
wavelength 4000/3), whereas the claimed once-per-hit-axis reduction would
apply setEnergy twice (wavelength 16000/9). -/
theorem C6_counterexample :
    (wallUpdate (1 / 2) pCorner).wavelength =
      (pCorner.set_energy (pCorner.energy * (1 - (1 / 2) * 0.5))).wavelength ∧
    (wallUpdate (1 / 2) pCorner).wavelength ≠
      ((pCorner.set_energy (pCorner.energy * (1 - (1 / 2) * 0.5))).set_energy
        ((pCorner.set_energy (pCorner.energy * (1 - (1 / 2) * 0.5))).energy *
          (1 - (1 / 2) * 0.5))).wavelength := by
  have hmax : max (1.0 : ℝ) (1000 : ℝ) = 1000 := by norm_num
  have hE : pCorner.energy = 100 := by
    rw [PhotonLikeParticle.energy,
      show pCorner.wavelength = (1000 : ℝ) from rfl, hmax]
    norm_num
  have honce :
      (pCorner.set_energy (pCorner.energy * (1 - (1 / 2) * 0.5))).wavelength =
        4000 / 3 := by
    rw [PhotonLikeParticle.set_energy, hE]
    norm_num
  have hEonce :
      (pCorner.set_energy (pCorner.energy * (1 - (1 / 2) * 0.5))).energy =
        75 := by
    rw [PhotonLikeParticle.energy, honce,
      max_eq_right (by norm_num : (1.0 : ℝ) ≤ 4000 / 3)]
    norm_num
  have htwice :
      ((pCorner.set_energy (pCorner.energy * (1 - (1 / 2) * 0.5))).set_energy
        ((pCorner.set_energy (pCorner.energy * (1 - (1 / 2) * 0.5))).energy *
          (1 - (1 / 2) * 0.5))).wavelength = 16000 / 9 := by
    rw [PhotonLikeParticle.set_energy, hEonce]
    norm_num
  have hcode : (wallUpdate (1 / 2) pCorner).wavelength = 4000 / 3 := by
    have hD : ((pCorner.position.x ≤ COLLISION_RADIUS ∨
        pCorner.position.x ≥ ENV_SIZE.1 - COLLISION_RADIUS) ∨
      (pCorner.position.y ≤ COLLISION_RADIUS ∨
        pCorner.position.y ≥ ENV_SIZE.2 - COLLISION_RADIUS)) ∧
        (1 / 2 : ℝ) > 0 := by
      refine ⟨Or.inl (Or.inl ?_), by norm_num⟩
      rw [show pCorner.position.x = (0 : ℝ) from rfl, COLLISION_RADIUS]
      norm_num
    rw [wallUpdate_wavelength_hit (1 / 2) pCorner hD, honce]
  exact ⟨by rw [hcode, honce], by rw [hcode, htwice]; norm_num⟩

/-- C9 counterexample: at position (-1, -1) with the engine's cell size
24, the code's int() truncation places the particle in cell (0, 0),
whereas the claimed floor computation gives cell (-1, -1). -/
theorem C9_counterexample :
    gridEmpty.key (Vector2D.mk (-1) (-1)) = (0, 0) ∧
    gridEmpty.keyFloor (Vector2D.mk (-1) (-1)) = (-1, -1) ∧
    gridEmpty.key (Vector2D.mk (-1) (-1)) ≠
      gridEmpty.keyFloor (Vector2D.mk (-1) (-1)) := by
  have hneg : ¬ (0 : ℝ) ≤ (-1) / 24 := by norm_num
  have hceil : ⌈((-1 : ℝ)) / 24⌉ = 0 := by
    rw [Int.ceil_eq_iff]
    constructor <;> norm_num
  have hfloor : ⌊((-1 : ℝ)) / 24⌋ = -1 := by
    rw [Int.floor_eq_iff]
    constructor <;> norm_num
  have hk : gridEmpty.key (Vector2D.mk (-1) (-1)) = (0, 0) := by
    simp only [Grid.key, pyInt,
      show gridEmpty.cell_size = (24 : ℝ) from rfl,
      show (Vector2D.mk (-1) (-1)).x = (-1 : ℝ) from rfl,
      show (Vector2D.mk (-1) (-1)).y = (-1 : ℝ) from rfl,
      if_neg hneg, hceil]
  have hkf : gridEmpty.keyFloor (Vector2D.mk (-1) (-1)) = (-1, -1) := by
    simp only [Grid.keyFloor,
      show gridEmpty.cell_size = (24 : ℝ) from rfl,
      show (Vector2D.mk (-1) (-1)).x = (-1 : ℝ) from rfl,
      show (Vector2D.mk (-1) (-1)).y = (-1 : ℝ) from rfl,
      hfloor]
  refine ⟨hk, hkf, ?_⟩
  rw [hk, hkf]
  decide

/-- C9 amended: insert and get_neighbors both compute the particle's cell
key by int() truncation toward zero, (trunc(x/cellSize),
trunc(y/cellSize)); for a positive cell size and non-negative coordinates
this coincides with the claimed floor pair, insert appends to that key's
bucket, and get_neighbors concatenates the 3x3 raster block of buckets
around it.  For negative coordinates truncation and floor differ. -/
theorem C9_cell_key (g : Grid) (pos : Vector2D)
    (hcs : 0 < g.cell_size) (hx : 0 ≤ pos.x) (hy : 0 ≤ pos.y) :
    g.key pos = g.keyFloor pos ∧
    ∀ p : PhotonLikeParticle, p.position = pos →
      ((g.insert p).cells (g.key pos) = g.cells (g.key pos) ++ [p] ∧
       g.get_neighbors p =
         (gridOffsets.map (fun d => g.cells (g.key pos + d))).flatten) := by
  have hqx : 0 ≤ pos.x / g.cell_size := div_nonneg hx hcs.le
  have hqy : 0 ≤ pos.y / g.cell_size := div_nonneg hy hcs.le
  constructor
  · simp only [Grid.key, Grid.keyFloor, pyInt, if_pos hqx, if_pos hqy]
  · intro p hp
    constructor
    · simp only [Grid.insert]
      rw [hp, if_pos rfl]
    · simp only [Grid.get_neighbors]
      rw [hp]

theorem C9_cell_key_witness :
    (0 : ℝ) < gridEmpty.cell_size ∧
    gridEmpty.key (Vector2D.mk 30 50) =
      gridEmpty.keyFloor (Vector2D.mk 30 50) := by
  have hcs : (0 : ℝ) < gridEmpty.cell_size := by
    rw [show gridEmpty.cell_size = (24 : ℝ) from rfl]
    norm_num
  exact ⟨hcs, (C9_cell_key gridEmpty (Vector2D.mk 30 50) hcs
    (by norm_num) (by norm_num)).1⟩

end NewtonianPhoton
